import Mathlib

/-!
Shallow embedding of the client-side service layer of `mvx-onchain-proof`:
the smart-contract service and wallet service from the wallet-app bundle
(`src/unnamed/part_000`) and the frontend-modern contract service
(`src/frontend-modern/src/utils/contractService.ts`).

JavaScript exceptions are modelled with `Except String` (respectively
`Except JsErr` where the distinction between a thrown `Error` instance and
an arbitrary thrown value matters, because the code inspects
`error instanceof Error`).  Opaque third-party collaborators (the network
provider, the SDK result parser, the signing backends, the browser
environment and `localStorage`) are modelled as explicit behaviour
parameters, so that every theorem quantifies over every behaviour of the
collaborator.
-/

namespace MvxOnchainProof

/-- A thrown JavaScript value: `isError` records whether it is an `Error`
instance (the code branches on `error instanceof Error`), `message` its
`.message` field (meaningful only when `isError = true`). -/
structure JsErr where
  isError : Bool
  message : String
deriving DecidableEq, Repr

/-- `error instanceof Error ? error.message : fallback` — the re-wrapping
pattern used throughout both services. -/
def errToMsg (e : JsErr) (fallback : String) : String :=
  if e.isError then e.message else fallback

namespace ContractService

/-!
## `ContractService.waitForTransaction` (src/unnamed/part_000, lines 311-336)

```js
for (let i = 0; i < maxRetries; i++) {
  try {
    const status = await this.getTransactionStatus(txHash);
    if (status.status === 'executed' || status.status === 'success') return status;
    if (status.status === 'failed' || status.status === 'invalid')
      throw new Error(`Transaction failed: ...`);
    await sleep(2000);
  } catch (error) {
    if (i === maxRetries - 1) throw error;
    await sleep(2000);
  }
}
throw new Error('Transaction timeout');
```

The behaviour of `getTransactionStatus` is a parameter
`statuses : Nat → Except String String`: on the k-th poll (0-based) the
call either returns a status string or throws.  The model is structural on
the number of loop iterations left: with `remaining + 1` iterations left
the loop index of the current iteration is `i = maxRetries - (remaining + 1)`,
so `i = maxRetries - 1` exactly when `remaining = 0`.  The result pairs
the outcome with the number of status polls performed.
Note that the `throw` for a `failed`/`invalid` status sits inside the
`try`, so it is caught by the loop's own `catch` and only propagates on
the last iteration (`i === maxRetries - 1`).
-/

/-- One execution of the polling loop body and its continuation, with
`remaining` iterations left; returns (outcome, number of polls made). -/
def waitAux (statuses : Nat → Except String String) (maxRetries : Nat) :
    Nat → Except String String × Nat
  | 0 => (.error "Transaction timeout", 0)
  | remaining + 1 =>
    match statuses (maxRetries - (remaining + 1)) with
    | .ok s =>
      if s = "executed" ∨ s = "success" then (.ok s, 1)
      else if s = "failed" ∨ s = "invalid" then
        -- thrown inside the try, hence caught by the loop's own catch
        if remaining = 0 then (.error ("Transaction failed: " ++ s), 1)
        else
          let r := waitAux statuses maxRetries remaining
          (r.1, r.2 + 1)
      else
        let r := waitAux statuses maxRetries remaining
        (r.1, r.2 + 1)
    | .error e =>
      if remaining = 0 then (.error e, 1)
      else
        let r := waitAux statuses maxRetries remaining
        (r.1, r.2 + 1)

/-- `waitForTransaction(txHash, maxRetries)`: outcome and poll count, as a
function of the poll behaviour. -/
def waitForTransaction (statuses : Nat → Except String String)
    (maxRetries : Nat) : Except String String × Nat :=
  waitAux statuses maxRetries maxRetries

/-- A poll outcome that triggers neither terminal branch of the loop. -/
def NonTerminalPoll (r : Except String String) : Prop :=
  ∃ s, r = .ok s ∧ s ≠ "executed" ∧ s ≠ "success" ∧ s ≠ "failed" ∧ s ≠ "invalid"

/-- Every run of the loop performs at most `remaining` status polls. -/
theorem waitAux_poll_bound (statuses : Nat → Except String String)
    (maxRetries : Nat) :
    ∀ remaining, (waitAux statuses maxRetries remaining).2 ≤ remaining := by
  intro remaining
  induction remaining with
  | zero => simp [waitAux]
  | succ n ih =>
    simp only [waitAux]
    cases h : statuses (maxRetries - (n + 1)) with
    | ok s =>
      by_cases h1 : s = "executed" ∨ s = "success"
      · simp [h1]
      · by_cases h2 : s = "failed" ∨ s = "invalid"
        · by_cases h3 : n = 0
          · simp [h1, h2, h3]
          · simp [h1, h2, h3]
            omega
        · simp [h1, h2]
          omega
    | error e =>
      by_cases h3 : n = 0
      · simp [h3]
      · simp [h3]
        omega

/-- When every poll in the window is non-terminal, the loop runs all its
iterations and ends in the timeout error, one poll per iteration. -/
theorem waitAux_all_nonterminal (statuses : Nat → Except String String)
    (maxRetries : Nat) (hm : 0 < maxRetries)
    (hnt : ∀ i, i < maxRetries → NonTerminalPoll (statuses i)) :
    ∀ remaining, waitAux statuses maxRetries remaining =
      (.error "Transaction timeout", remaining) := by
  intro remaining
  induction remaining with
  | zero => simp [waitAux]
  | succ n ih =>
    obtain ⟨s, hs, h1, h2, h3, h4⟩ := hnt (maxRetries - (n + 1)) (by omega)
    simp [waitAux, hs, h1, h2, h3, h4, ih]

/-- If poll `k` is the first one reporting a success status, the loop
returns that status having made exactly `k + 1 - (loop index already
consumed)` polls. -/
theorem waitAux_first_success (statuses : Nat → Except String String)
    (maxRetries k : Nat) (s : String)
    (hk : k < maxRetries) (hsucc : statuses k = .ok s)
    (hs : s = "executed" ∨ s = "success")
    (hbefore : ∀ i, i < k → NonTerminalPoll (statuses i)) :
    ∀ remaining, remaining ≤ maxRetries → maxRetries - remaining ≤ k →
      waitAux statuses maxRetries remaining =
        (.ok s, k - (maxRetries - remaining) + 1) := by
  intro remaining
  induction remaining with
  | zero =>
    intro _ hle
    omega
  | succ n ih =>
    intro hrem hle
    rcases Nat.lt_or_ge (maxRetries - (n + 1)) k with hlt | hge
    · obtain ⟨t, ht, h1, h2, h3, h4⟩ := hbefore _ hlt
      have hrec := ih (by omega) (by omega)
      simp [waitAux, ht, h1, h2, h3, h4, hrec]
      omega
    · have hik : maxRetries - (n + 1) = k := by omega
      rw [waitAux, hik, hsucc]
      simp [hs, hik]

end ContractService

/-- C1: the claim states that a poll reporting `failed` or `invalid` makes
`waitForTransaction` raise immediately, with no further status polls.  In
the code the corresponding `throw` sits inside the loop's own `try`, so it
is caught by the `catch` and retried: with `maxRetries = 2` and every poll
reporting `failed`, the loop performs 2 polls (not 1) before the error
propagates from the last iteration. -/
theorem waitForTransaction_failed_poll_is_retried :
    ContractService.waitForTransaction (fun _ => .ok "failed") 2 =
      (.error "Transaction failed: failed", 2) := rfl

/-- C3: for every poll behaviour that is non-terminal on the whole window
and every maxRetries ≥ 1, `waitForTransaction` performs exactly
`maxRetries` polls and then raises the timeout error; moreover for every
behaviour and every retry budget the number of polls never exceeds the
budget. -/
theorem waitForTransaction_exhausts_exactly_maxRetries
    (statuses : Nat → Except String String) (maxRetries : Nat)
    (hm : 1 ≤ maxRetries)
    (hnt : ∀ i, i < maxRetries → ContractService.NonTerminalPoll (statuses i)) :
    ContractService.waitForTransaction statuses maxRetries =
      (.error "Transaction timeout", maxRetries)
    ∧ ∀ (st : Nat → Except String String) (mr : Nat),
        (ContractService.waitForTransaction st mr).2 ≤ mr := by
  constructor
  · exact ContractService.waitAux_all_nonterminal statuses maxRetries hm hnt maxRetries
  · intro st mr
    exact ContractService.waitAux_poll_bound st mr mr

/-- Witness for C3: three polls all reporting `pending` with
`maxRetries = 3` end in the timeout error after exactly 3 polls. -/
theorem waitForTransaction_exhausts_exactly_maxRetries_witness :
    ContractService.waitForTransaction (fun _ => .ok "pending") 3 =
      (.error "Transaction timeout", 3) :=
  (waitForTransaction_exhausts_exactly_maxRetries (fun _ => .ok "pending") 3
    (by decide)
    (fun _ _ => ⟨"pending", rfl, by decide, by decide, by decide, by decide⟩)).1

/-- C6: `waitForTransaction` returns on the first poll whose status is
`executed` or `success`: if polls before `k` are non-terminal and poll `k`
reports a success status, the call returns that status having performed
exactly `k + 1` polls. -/
theorem waitForTransaction_returns_on_first_success
    (statuses : Nat → Except String String) (maxRetries k : Nat) (s : String)
    (hk : k < maxRetries) (hsucc : statuses k = .ok s)
    (hs : s = "executed" ∨ s = "success")
    (hbefore : ∀ i, i < k → ContractService.NonTerminalPoll (statuses i)) :
    ContractService.waitForTransaction statuses maxRetries = (.ok s, k + 1) := by
  have h := ContractService.waitAux_first_success statuses maxRetries k s hk hsucc
    hs hbefore maxRetries (le_refl _) (by omega)
  simpa [ContractService.waitForTransaction] using h

/-- Witness for C6: a `pending` poll followed by an `executed` poll, with
`maxRetries = 5`, returns `executed` after exactly 2 polls. -/
theorem waitForTransaction_returns_on_first_success_witness :
    ContractService.waitForTransaction
      (fun i => if i = 0 then .ok "pending" else .ok "executed") 5 =
      (.ok "executed", 2) :=
  waitForTransaction_returns_on_first_success
    (fun i => if i = 0 then .ok "pending" else .ok "executed") 5 1 "executed"
    (by decide) rfl (Or.inl rfl)
    (fun i hi => by
      have hi0 : i = 0 := by omega
      subst hi0
      exact ⟨"pending", rfl, by decide, by decide, by decide, by decide⟩)

/-!
## Read operations (src/unnamed/part_000, lines 123-308, and
src/frontend-modern/src/utils/contractService.ts, lines 161-181)

Each read issues one `queryContract` call and decodes the response with
the SDK's `ResultsParser`.  Both collaborators are opaque; their behaviour
on the one call a read makes is the environment `ReadEnv`:
`queryResult` is the thrown error or the response's `returnData` entries,
`parseResult` the thrown error or the decoded value
(`none` when the parser yields a null/absent first value).
-/

/-- The decoded on-chain proof record (`ProofData` in both services). -/
structure ProofData where
  proof_text : String
  timestamp : Nat
  proof_id : String
  metadata : String
deriving DecidableEq, Repr

/-- Behaviour of the network provider and result parser on the single
query a read operation performs. -/
structure ReadEnv (α : Type) where
  queryResult : Except String (List String)
  parseResult : Except String α

/-- A read environment in which the query throws, the response is empty,
or the parser throws. -/
def ReadEnv.fails {α : Type} (env : ReadEnv α) : Prop :=
  (∃ e, env.queryResult = .error e) ∨ env.queryResult = .ok [] ∨
    ∃ e, env.parseResult = .error e

namespace ContractService

/-- `getProof` (part_000, lines 123-165): empty response or any thrown
error yields `null`; a decoded absent optional also yields `null`. -/
def getProof (env : ReadEnv (Option ProofData)) :
    Except String (Option ProofData) :=
  match env.queryResult with
  | .error _ => .ok none
  | .ok returnData =>
    if returnData.length = 0 then .ok none
    else
      match env.parseResult with
      | .error _ => .ok none
      | .ok none => .ok none
      | .ok (some p) => .ok (some p)

/-- `getUserProofs` (part_000, lines 168-204): empty response or any
thrown error yields `[]`; a decoded non-array value also yields `[]`. -/
def getUserProofs (env : ReadEnv (Option (List ProofData))) :
    Except String (List ProofData) :=
  match env.queryResult with
  | .error _ => .ok []
  | .ok returnData =>
    if returnData.length = 0 then .ok []
    else
      match env.parseResult with
      | .error _ => .ok []
      | .ok none => .ok []
      | .ok (some l) => .ok l

/-- `proofExists` (part_000, lines 207-230): empty response or any thrown
error yields `false`; otherwise the result is whether the decoded first
value is literally `true`. -/
def proofExists (env : ReadEnv (Option Bool)) : Except String Bool :=
  match env.queryResult with
  | .error _ => .ok false
  | .ok returnData =>
    if returnData.length = 0 then .ok false
    else
      match env.parseResult with
      | .error _ => .ok false
      | .ok v => .ok (decide (v = some true))

/-- `getUserProofCount` (part_000, lines 259-282): empty response or any
thrown error yields `0`; a falsy decoded first value also yields `0`. -/
def getUserProofCount (env : ReadEnv (Option Nat)) : Except String Nat :=
  match env.queryResult with
  | .error _ => .ok 0
  | .ok returnData =>
    if returnData.length = 0 then .ok 0
    else
      match env.parseResult with
      | .error _ => .ok 0
      | .ok v => .ok (v.getD 0)

/-- `getTotalProofs` (part_000, lines 285-308): same shape as
`getUserProofCount` with no arguments and the `getTotalProofs` endpoint. -/
def getTotalProofs (env : ReadEnv (Option Nat)) : Except String Nat :=
  match env.queryResult with
  | .error _ => .ok 0
  | .ok returnData =>
    if returnData.length = 0 then .ok 0
    else
      match env.parseResult with
      | .error _ => .ok 0
      | .ok v => .ok (v.getD 0)

end ContractService

namespace Frontend

/-- The frontend-modern query response: `isSuccess()` and `returnData`. -/
structure QueryResponse where
  isSuccess : Bool
  returnData : List String
deriving Repr

/-- Behaviour of the frontend-modern provider and parser on one query. -/
structure FMReadEnv (α : Type) where
  queryResult : Except String QueryResponse
  parseResult : Except String α

/-- `ContractService.getProof` (frontend-modern contractService.ts,
lines 161-181): unlike the part_000 service, the `catch` block rethrows,
so a thrown query or decode error propagates to the caller. -/
def getProof (env : FMReadEnv ProofData) : Except String (Option ProofData) :=
  match env.queryResult with
  | .error e => .error e
  | .ok resp =>
    if resp.isSuccess && resp.returnData.length > 0 then
      match env.parseResult with
      | .error e => .error e
      | .ok p => .ok (some p)
    else .ok none

end Frontend

/-- C2 counterexample: the claim covers the frontend-modern read
operations as well, but there `getProof` rethrows a provider error
instead of returning `null`: with a provider that throws
`network failure`, the call raises. -/
theorem frontend_getProof_raises_on_provider_error :
    Frontend.getProof ⟨.error "network failure", .error "unused"⟩ =
      .error "network failure" := rfl

/-- C2 (amended): in the part_000 service the read operations never
raise — for every provider/parser behaviour each returns normally — and
on any failing environment (thrown query, empty response, or thrown
decode) they return their defaults: `getProof` null, `getUserProofs` [],
`proofExists` false, `getUserProofCount`/`getTotalProofs` 0.  The
frontend-modern `getProof` instead propagates a thrown query error. -/
theorem reads_never_raise_and_default_on_failure :
    (∀ env : ReadEnv (Option ProofData), ∃ v, ContractService.getProof env = .ok v)
    ∧ (∀ env : ReadEnv (Option (List ProofData)), ∃ v, ContractService.getUserProofs env = .ok v)
    ∧ (∀ env : ReadEnv (Option Bool), ∃ v, ContractService.proofExists env = .ok v)
    ∧ (∀ env : ReadEnv (Option Nat), ∃ v, ContractService.getUserProofCount env = .ok v)
    ∧ (∀ env : ReadEnv (Option Nat), ∃ v, ContractService.getTotalProofs env = .ok v)
    ∧ (∀ env : ReadEnv (Option ProofData), env.fails →
        ContractService.getProof env = .ok none)
    ∧ (∀ env : ReadEnv (Option (List ProofData)), env.fails →
        ContractService.getUserProofs env = .ok [])
    ∧ (∀ env : ReadEnv (Option Bool), env.fails →
        ContractService.proofExists env = .ok false)
    ∧ (∀ env : ReadEnv (Option Nat), env.fails →
        ContractService.getUserProofCount env = .ok 0)
    ∧ (∀ env : ReadEnv (Option Nat), env.fails →
        ContractService.getTotalProofs env = .ok 0)
    ∧ (∀ (e : String) (pr : Except String ProofData),
        Frontend.getProof ⟨.error e, pr⟩ = .error e) := by
  refine ⟨?_, ?_, ?_, ?_, ?_, ?_, ?_, ?_, ?_, ?_, ?_⟩
  · rintro ⟨q, p⟩
    rcases q with e | rd
    · exact ⟨none, rfl⟩
    · by_cases h : rd.length = 0
      · exact ⟨none, by simp [ContractService.getProof, h]⟩
      · rcases p with e | v
        · exact ⟨none, by simp [ContractService.getProof, h]⟩
        · rcases v with _ | p
          · exact ⟨none, by simp [ContractService.getProof, h]⟩
          · exact ⟨some p, by simp [ContractService.getProof, h]⟩
  · rintro ⟨q, p⟩
    rcases q with e | rd
    · exact ⟨[], rfl⟩
    · by_cases h : rd.length = 0
      · exact ⟨[], by simp [ContractService.getUserProofs, h]⟩
      · rcases p with e | v
        · exact ⟨[], by simp [ContractService.getUserProofs, h]⟩
        · rcases v with _ | l
          · exact ⟨[], by simp [ContractService.getUserProofs, h]⟩
          · exact ⟨l, by simp [ContractService.getUserProofs, h]⟩
  · rintro ⟨q, p⟩
    rcases q with e | rd
    · exact ⟨false, rfl⟩
    · by_cases h : rd.length = 0
      · exact ⟨false, by simp [ContractService.proofExists, h]⟩
      · rcases p with e | v
        · exact ⟨false, by simp [ContractService.proofExists, h]⟩
        · exact ⟨decide (v = some true), by simp [ContractService.proofExists, h]⟩
  · rintro ⟨q, p⟩
    rcases q with e | rd
    · exact ⟨0, rfl⟩
    · by_cases h : rd.length = 0
      · exact ⟨0, by simp [ContractService.getUserProofCount, h]⟩
      · rcases p with e | v
        · exact ⟨0, by simp [ContractService.getUserProofCount, h]⟩
        · exact ⟨v.getD 0, by simp [ContractService.getUserProofCount, h]⟩
  · rintro ⟨q, p⟩
    rcases q with e | rd
    · exact ⟨0, rfl⟩
    · by_cases h : rd.length = 0
      · exact ⟨0, by simp [ContractService.getTotalProofs, h]⟩
      · rcases p with e | v
        · exact ⟨0, by simp [ContractService.getTotalProofs, h]⟩
        · exact ⟨v.getD 0, by simp [ContractService.getTotalProofs, h]⟩
  · rintro ⟨q, p⟩ hf
    rcases hf with ⟨e, he⟩ | he | ⟨e, he⟩ <;> simp_all [ContractService.getProof]
    cases q <;> rfl
  · rintro ⟨q, p⟩ hf
    rcases hf with ⟨e, he⟩ | he | ⟨e, he⟩ <;> simp_all [ContractService.getUserProofs]
    cases q <;> rfl
  · rintro ⟨q, p⟩ hf
    rcases hf with ⟨e, he⟩ | he | ⟨e, he⟩ <;> simp_all [ContractService.proofExists]
    cases q <;> rfl
  · rintro ⟨q, p⟩ hf
    rcases hf with ⟨e, he⟩ | he | ⟨e, he⟩ <;> simp_all [ContractService.getUserProofCount]
    cases q <;> rfl
  · rintro ⟨q, p⟩ hf
    rcases hf with ⟨e, he⟩ | he | ⟨e, he⟩ <;> simp_all [ContractService.getTotalProofs]
    cases q <;> rfl
  · intro e pr
    rfl

/-- Witness for C2: a provider that throws `boom` makes the part_000
`getProof` return null (without raising). -/
theorem reads_never_raise_and_default_on_failure_witness :
    ContractService.getProof ⟨.error "boom", .ok none⟩ = .ok none :=
  reads_never_raise_and_default_on_failure.2.2.2.2.2.1
    ⟨.error "boom", .ok none⟩ (Or.inl ⟨"boom", rfl⟩)

/-!
## `WalletService` (src/unnamed/part_000, lines 346-628)

The signing backend selected by `connectWallet` is opaque; its behaviour
is a `Backend`: the outcome of `init()`, of `login()` (the address), of
`account.sync(...)` (the balance), whether the handle has a `logout`
member, and the outcome of `logout()`.  The browser environment supplies
`isExtensionInstalled()` / `isLedgerSupported()`.  The service's mutable
state is the in-memory `currentProvider` handle and the persisted
`wallet_state` localStorage entry; the latter is `none` when the key is
absent, `corrupt` when the stored text does not parse as JSON, and
otherwise the parsed `{providerId, address, connectedAt}` blob.
-/

/-- Behaviour of one signing backend on the calls the service makes. -/
structure Backend where
  initResult : Except JsErr Unit
  loginResult : Except JsErr String
  syncResult : Except JsErr String
  hasLogout : Bool
  logoutResult : Except JsErr Unit

/-- Browser capabilities probed by the service. -/
structure BrowserEnv where
  extensionInstalled : Bool
  ledgerSupported : Bool
deriving DecidableEq, Repr

/-- The persisted `wallet_state` localStorage entry. -/
inductive StoredState
  | valid (providerId address : String) (connectedAt : Int)
  | corrupt
deriving DecidableEq, Repr

/-- The service's mutable state: in-memory provider handle and the
persisted `wallet_state` key. -/
structure ServiceState where
  currentProvider : Option Backend
  storage : Option StoredState

/-- The `WalletState` record returned to the UI. -/
structure WalletState where
  isConnected : Bool
  address : Option String := none
  balance : Option String := none
  provider : Option String := none
  isLoading : Bool
  error : Option String := none
deriving DecidableEq, Repr

namespace WalletService

/-- `getAvailableProviders().find(p => p.id === providerId)`, the
descriptor modelled by its id: present exactly for the four known ids. -/
def findProviderDescriptor (providerId : String) : Option String :=
  if providerId = "extension" ∨ providerId = "webwallet" ∨
      providerId = "walletconnect" ∨ providerId = "ledger" then
    some providerId
  else none

/-- The provider-selection `switch` of `connectWallet` (lines 423-461):
`.ok ()` when a provider handle was obtained and initialized, `.error`
when this stage threw.  `extension` and `ledger` first probe the browser
and throw a fixed `Error` when unsupported; `webwallet` only runs a
constructor; `extension`, `walletconnect` and `ledger` then await
`provider.init()`; any other id throws `Unknown provider`. -/
def selectProvider (providerId : String) (env : BrowserEnv) (b : Backend) :
    Except JsErr Unit :=
  match providerId with
  | "extension" =>
    if ¬env.extensionInstalled then
      .error ⟨true, "MultiversX Extension not installed"⟩
    else b.initResult
  | "webwallet" => .ok ()
  | "walletconnect" => b.initResult
  | "ledger" =>
    if ¬env.ledgerSupported then
      .error ⟨true, "Ledger not supported in this browser"⟩
    else b.initResult
  | _ => .error ⟨true, "Unknown provider: " ++ providerId⟩

/-- `connectWallet(providerId)` (lines 419-494).  On any throw the catch
returns a disconnected state carrying `error.message` (or the fixed
fallback for a non-`Error` throw).  On success it stores the handle,
logs in, syncs the account, persists `{providerId, address, connectedAt}`
and returns a connected state.  Note `this.currentProvider = provider` is
assigned before `login()`, so a failed login leaves the handle set. -/
def connectWallet (providerId : String) (env : BrowserEnv) (b : Backend)
    (now : Int) (st : ServiceState) : WalletState × ServiceState :=
  match selectProvider providerId env b with
  | .error e =>
    ({ isConnected := false, isLoading := false,
       error := some (errToMsg e "Connection failed") }, st)
  | .ok _ =>
    let st1 : ServiceState := { st with currentProvider := some b }
    match b.loginResult with
    | .error e =>
      ({ isConnected := false, isLoading := false,
         error := some (errToMsg e "Connection failed") }, st1)
    | .ok address =>
      match b.syncResult with
      | .error e =>
        ({ isConnected := false, isLoading := false,
           error := some (errToMsg e "Connection failed") }, st1)
      | .ok balance =>
        ({ isConnected := true, address := some address,
           balance := some balance,
           provider := findProviderDescriptor providerId,
           isLoading := false },
         { st1 with storage := some (.valid providerId address now) })

/-- `disconnectWallet()` (lines 497-508): best-effort `logout()` inside a
try whose catch only logs, then a `finally` that nulls the handle and
removes the persisted key.  The second component is the message logged by
the catch, `none` when nothing was thrown. -/
def disconnectWallet (st : ServiceState) : ServiceState × Option String :=
  let logged : Option String :=
    match st.currentProvider with
    | some p =>
      if p.hasLogout then
        match p.logoutResult with
        | .error e => some (errToMsg e "Wallet disconnect error")
        | .ok _ => none
      else none
    | none => none
  ({ st with currentProvider := none, storage := none }, logged)

/-- `getCurrentWalletState()` (lines 511-529): absent key gives a
disconnected state; an unparsable blob is removed and gives a
disconnected state; a parsed blob gives `isConnected: true` with the
stored address regardless of the in-memory handle. -/
def getCurrentWalletState (st : ServiceState) : WalletState × ServiceState :=
  match st.storage with
  | none => ({ isConnected := false, isLoading := false }, st)
  | some .corrupt =>
    ({ isConnected := false, isLoading := false }, { st with storage := none })
  | some (.valid providerId address _) =>
    ({ isConnected := true, address := some address,
       provider := findProviderDescriptor providerId, isLoading := false }, st)

/-- `autoReconnect()` (lines 586-613): reconnects through `connectWallet`
only when the blob parses, is younger than 24 hours and its provider is
not `webwallet`; otherwise removes the key and returns a disconnected
state.  The third component records whether a reconnect was attempted. -/
def autoReconnect (st : ServiceState) (now : Int) (env : BrowserEnv)
    (b : Backend) : WalletState × ServiceState × Bool :=
  match st.storage with
  | none => ({ isConnected := false, isLoading := false }, st, false)
  | some .corrupt =>
    ({ isConnected := false, isLoading := false,
       error := some "Auto-reconnect failed" },
     { st with storage := none }, false)
  | some (.valid providerId _ connectedAt) =>
    if now - connectedAt < 86400000 ∧ providerId ≠ "webwallet" then
      let (ws, st') := connectWallet providerId env b now st
      (ws, st', true)
    else
      ({ isConnected := false, isLoading := false },
       { st with storage := none }, false)

end WalletService

/-!
## Mutating operations (src/unnamed/part_000, lines 48-120 and 532-551)

`createProof`/`updateProof` read the wallet state, fail fast when it is
not connected (JS truthiness: an absent or empty address fails the
`!walletState.address` check), build the argument list and a transaction,
and delegate to `walletService.signAndSendTransaction`.  The observable
effects are recorded as a trace of `NetCall`s (signing requests and
broadcasts); the guard failure happens before any of them.
-/

/-- The transaction built by `this.contract.call({...})`: function name,
`StringValue` arguments (modelled by their payloads), gas limit, caller. -/
structure Tx where
  func : String
  args : List String
  gasLimit : Nat
  caller : String
deriving DecidableEq, Repr

/-- An observable outbound call of the mutating path. -/
inductive NetCall
  | sign (tx : Tx)
  | broadcast (tx : Tx)
deriving DecidableEq, Repr

/-- Behaviour of the signing backend and network provider on the sign and
broadcast calls of one `signAndSendTransaction` invocation. -/
structure SignSendEnv where
  signResult : Except JsErr Unit
  sendResult : Except JsErr String

/-- JS truthiness of an optional string: `undefined` and `""` are falsy. -/
def jsTruthy : Option String → Bool
  | none => false
  | some s => s ≠ ""

namespace WalletService

/-- `signAndSendTransaction(transaction)` (lines 532-551): throws
`No wallet connected` before any call when no handle is set; otherwise
signs then broadcasts, re-wrapping a thrown error's message (fallback
`Transaction failed` for a non-`Error` throw). -/
def signAndSendTransaction (st : ServiceState) (tx : Tx)
    (env : SignSendEnv) : Except String String × List NetCall :=
  match st.currentProvider with
  | none => (.error "No wallet connected", [])
  | some _ =>
    match env.signResult with
    | .error e => (.error (errToMsg e "Transaction failed"), [.sign tx])
    | .ok _ =>
      match env.sendResult with
      | .error e =>
        (.error (errToMsg e "Transaction failed"), [.sign tx, .broadcast tx])
      | .ok txHash => (.ok txHash, [.sign tx, .broadcast tx])

end WalletService

namespace ContractService

/-- `CreateProofRequest`: `metadata` is optional. -/
structure CreateProofRequest where
  proof_text : String
  proof_id : String
  metadata : Option String
deriving DecidableEq, Repr

/-- `UpdateProofRequest`: `new_metadata` is optional. -/
structure UpdateProofRequest where
  proof_id : String
  new_proof_text : String
  new_metadata : Option String
deriving DecidableEq, Repr

/-- The argument list built by `createProof` (lines 56-64): the two
required strings, with the metadata pushed only when
`if (request.metadata)` holds, i.e. when it is present and non-empty. -/
def createArgs (r : CreateProofRequest) : List String :=
  let args := [r.proof_text, r.proof_id]
  if jsTruthy r.metadata then args ++ [r.metadata.getD ""] else args

/-- The argument list built by `updateProof` (lines 94-102). -/
def updateArgs (r : UpdateProofRequest) : List String :=
  let args := [r.proof_id, r.new_proof_text]
  if jsTruthy r.new_metadata then args ++ [r.new_metadata.getD ""] else args

/-- `createProof(request)` (lines 48-83): guard on the wallet state (the
throw sits before the try, so its message is not re-wrapped), then build
the `certify_action` transaction with a 20M gas limit and delegate to
`signAndSendTransaction`; the catch re-raises the delegate's `Error`
message unchanged. -/
def createProof (st : ServiceState) (r : CreateProofRequest)
    (env : SignSendEnv) : Except String String × List NetCall :=
  let (ws, st1) := WalletService.getCurrentWalletState st
  if ¬ws.isConnected ∨ ¬jsTruthy ws.address then
    (.error "Wallet not connected", [])
  else
    let tx : Tx := { func := "certify_action", args := createArgs r,
                     gasLimit := 20000000, caller := ws.address.getD "" }
    WalletService.signAndSendTransaction st1 tx env

/-- `updateProof(request)` (lines 86-120): same shape with the
`update_proof` endpoint and a 15M gas limit. -/
def updateProof (st : ServiceState) (r : UpdateProofRequest)
    (env : SignSendEnv) : Except String String × List NetCall :=
  let (ws, st1) := WalletService.getCurrentWalletState st
  if ¬ws.isConnected ∨ ¬jsTruthy ws.address then
    (.error "Wallet not connected", [])
  else
    let tx : Tx := { func := "update_proof", args := updateArgs r,
                     gasLimit := 15000000, caller := ws.address.getD "" }
    WalletService.signAndSendTransaction st1 tx env

end ContractService

namespace Frontend

/-- An argument of the frontend-modern arg lists: a `BytesValue` or an
`OptionalValue` (holding a value or empty). -/
inductive FMArg
  | bytes (s : String)
  | optionalSome (s : String)
  | optionalNone
deriving DecidableEq, Repr

/-- `CertifyActionParams` of the frontend-modern service. -/
structure CertifyActionParams where
  proofText : String
  proofId : String
  metadata : Option String
deriving DecidableEq, Repr

/-- The argument list built by `certifyAction` (frontend-modern
contractService.ts, lines 338-348): two `BytesValue`s, then always a
third `OptionalValue` argument — holding the metadata when
`if (params.metadata)` holds and empty otherwise. -/
def certifyActionArgs (p : CertifyActionParams) : List FMArg :=
  let args := [FMArg.bytes p.proofText, FMArg.bytes p.proofId]
  if jsTruthy p.metadata then args ++ [.optionalSome (p.metadata.getD "")]
  else args ++ [.optionalNone]

/-- `UpdateProofParams` of the frontend-modern service. -/
structure UpdateProofParams where
  proofId : String
  newProofText : String
  newMetadata : Option String
deriving DecidableEq, Repr

/-- The argument list built by the frontend-modern `updateProof`
(lines 385-395): same always-three-arguments shape. -/
def updateProofArgs (p : UpdateProofParams) : List FMArg :=
  let args := [FMArg.bytes p.proofId, FMArg.bytes p.newProofText]
  if jsTruthy p.newMetadata then args ++ [.optionalSome (p.newMetadata.getD "")]
  else args ++ [.optionalNone]

end Frontend

/-- C4 counterexample: the code never checks non-emptiness.  A backend
whose `login()` resolves to the empty string yields `isConnected = true`
with the empty address, and a backend whose `init()` throws an `Error`
with an empty message yields `isConnected = false` with the empty error
message — refuting the claimed non-emptiness of both fields. -/
theorem connectWallet_empty_address_and_empty_error :
    ((WalletService.connectWallet "webwallet" ⟨true, true⟩
        ⟨.ok (), .ok "", .ok "0", true, .ok ()⟩ 0 ⟨none, none⟩).1.isConnected = true
      ∧ (WalletService.connectWallet "webwallet" ⟨true, true⟩
          ⟨.ok (), .ok "", .ok "0", true, .ok ()⟩ 0 ⟨none, none⟩).1.address = some "")
    ∧ ((WalletService.connectWallet "walletconnect" ⟨true, true⟩
          ⟨.error ⟨true, ""⟩, .ok "addr", .ok "0", true, .ok ()⟩ 0
          ⟨none, none⟩).1.isConnected = false
      ∧ (WalletService.connectWallet "walletconnect" ⟨true, true⟩
          ⟨.error ⟨true, ""⟩, .ok "addr", .ok "0", true, .ok ()⟩ 0
          ⟨none, none⟩).1.error = some "") :=
  ⟨⟨rfl, rfl⟩, ⟨rfl, rfl⟩⟩

/-- C4 (amended): for every provider id and every backend behaviour,
`connectWallet` returns (never throws) and its result is exactly one of:
`isConnected = true` with an address present (the string `login()`
returned, possibly empty) and no error, or `isConnected = false` with an
error message present (the thrown error's message, possibly empty, or
the `Connection failed` fallback) and no address — never both and never
neither. -/
theorem connectWallet_connected_xor_error
    (providerId : String) (env : BrowserEnv) (b : Backend) (now : Int)
    (st : ServiceState) :
    ((WalletService.connectWallet providerId env b now st).1.isConnected = true
      ∧ ((WalletService.connectWallet providerId env b now st).1.address).isSome = true
      ∧ (WalletService.connectWallet providerId env b now st).1.error = none)
    ∨ ((WalletService.connectWallet providerId env b now st).1.isConnected = false
      ∧ ((WalletService.connectWallet providerId env b now st).1.error).isSome = true
      ∧ (WalletService.connectWallet providerId env b now st).1.address = none) := by
  cases hsel : WalletService.selectProvider providerId env b with
  | error e => simp [WalletService.connectWallet, hsel]
  | ok u =>
    cases hlog : b.loginResult with
    | error e => simp [WalletService.connectWallet, hsel, hlog]
    | ok address =>
      cases hsync : b.syncResult with
      | error e => simp [WalletService.connectWallet, hsel, hlog, hsync]
      | ok balance => simp [WalletService.connectWallet, hsel, hlog, hsync]

/-- C5: whenever the current wallet session is disconnected
(`isConnected = false` or no address), `createProof` and `updateProof`
fail with the `Wallet not connected` error and their effect trace is
empty: no signing request and no broadcast is issued. -/
theorem mutating_calls_fail_fast_when_disconnected
    (st : ServiceState) (rc : ContractService.CreateProofRequest)
    (ru : ContractService.UpdateProofRequest) (envc envu : SignSendEnv)
    (h : (WalletService.getCurrentWalletState st).1.isConnected = false
      ∨ (WalletService.getCurrentWalletState st).1.address = none) :
    ContractService.createProof st rc envc = (.error "Wallet not connected", [])
    ∧ ContractService.updateProof st ru envu =
        (.error "Wallet not connected", []) := by
  rcases hws : WalletService.getCurrentWalletState st with ⟨ws, st1⟩
  rw [hws] at h
  replace h : ws.isConnected = false ∨ ws.address = none := h
  have hguard : ¬ws.isConnected ∨ ¬jsTruthy ws.address := by
    rcases h with h | h
    · left
      simp [h]
    · right
      simp [jsTruthy, h]
  constructor
  · simp only [ContractService.createProof, hws]
    rw [if_pos hguard]
  · simp only [ContractService.updateProof, hws]
    rw [if_pos hguard]

/-- Witness for C5: with no persisted state at all, `createProof` fails
fast with `Wallet not connected` and an empty effect trace. -/
theorem mutating_calls_fail_fast_when_disconnected_witness :
    ContractService.createProof ⟨none, none⟩ ⟨"T", "X", none⟩ ⟨.ok (), .ok "h"⟩
      = (.error "Wallet not connected", []) :=
  (mutating_calls_fail_fast_when_disconnected ⟨none, none⟩ ⟨"T", "X", none⟩
    ⟨"X", "U", none⟩ ⟨.ok (), .ok "h"⟩ ⟨.ok (), .ok "h"⟩ (Or.inl rfl)).1

/-- C7: a persisted blob whose `connectedAt` lies more than 24 hours
(86400000 ms) before `now`, or whose provider id is `webwallet`, makes
`autoReconnect` skip reconnection: it removes the persisted key and
returns a disconnected state, attempting no reconnect. -/
theorem autoReconnect_expired_or_webwallet_clears
    (cp : Option Backend) (pid addr : String) (t now : Int)
    (env : BrowserEnv) (b : Backend)
    (h : now - t > 86400000 ∨ pid = "webwallet") :
    WalletService.autoReconnect ⟨cp, some (.valid pid addr t)⟩ now env b =
      ({ isConnected := false, isLoading := false }, ⟨cp, none⟩, false) := by
  have hcond : ¬(now - t < 86400000 ∧ pid ≠ "webwallet") := by
    rcases h with h | h
    · rintro ⟨h1, _⟩
      omega
    · rintro ⟨_, h2⟩
      exact h2 h
  simp [WalletService.autoReconnect, hcond]

/-- Witness for C7: a `webwallet` blob is never auto-reconnected; the key
is removed and the returned state is disconnected. -/
theorem autoReconnect_expired_or_webwallet_clears_witness :
    WalletService.autoReconnect ⟨none, some (.valid "webwallet" "a" 0)⟩ 0
      ⟨true, true⟩ ⟨.ok (), .ok "a", .ok "0", true, .ok ()⟩ =
      ({ isConnected := false, isLoading := false }, ⟨none, none⟩, false) :=
  autoReconnect_expired_or_webwallet_clears none "webwallet" "a" 0 0
    ⟨true, true⟩ ⟨.ok (), .ok "a", .ok "0", true, .ok ()⟩ (Or.inr rfl)

/-- C8: for every starting state — hence for every behaviour of the
active backend's `logout`, including a throwing one and a handle without
a `logout` member — after `disconnectWallet` the in-memory handle is null
and the persisted `wallet_state` key is removed. -/
theorem disconnectWallet_clears_unconditionally (st : ServiceState) :
    (WalletService.disconnectWallet st).1.currentProvider = none
    ∧ (WalletService.disconnectWallet st).1.storage = none :=
  ⟨rfl, rfl⟩

/-- C9 counterexample: the frontend-modern `certifyAction` always pushes
a third `OptionalValue` argument, so with no metadata the list has three
entries, not two; and the part_000 `createProof` drops a provided empty
metadata string (JS truthiness), so a provided metadata is not always
appended. -/
theorem argList_shape_counterexample :
    Frontend.certifyActionArgs ⟨"T", "X", none⟩ =
      [.bytes "T", .bytes "X", .optionalNone]
    ∧ (Frontend.certifyActionArgs ⟨"T", "X", none⟩).length = 3
    ∧ ContractService.createArgs ⟨"T", "X", some ""⟩ = ["T", "X"] :=
  ⟨rfl, rfl, rfl⟩

/-- C9 (amended): in the part_000 service the argument list is exactly
the two required strings, with the metadata appended as a third entry
exactly when it is provided and non-empty; in the frontend-modern service
the argument list always has exactly three entries, the third an
`OptionalValue` holding the metadata when provided and non-empty and
empty otherwise. -/
theorem argList_shapes (rc : ContractService.CreateProofRequest)
    (ru : ContractService.UpdateProofRequest)
    (pc : Frontend.CertifyActionParams) (pu : Frontend.UpdateProofParams) :
    (ContractService.createArgs rc =
      if jsTruthy rc.metadata then
        [rc.proof_text, rc.proof_id, rc.metadata.getD ""]
      else [rc.proof_text, rc.proof_id])
    ∧ (ContractService.updateArgs ru =
      if jsTruthy ru.new_metadata then
        [ru.proof_id, ru.new_proof_text, ru.new_metadata.getD ""]
      else [ru.proof_id, ru.new_proof_text])
    ∧ ((Frontend.certifyActionArgs pc).length = 3
      ∧ Frontend.certifyActionArgs pc =
        [.bytes pc.proofText, .bytes pc.proofId,
          if jsTruthy pc.metadata then .optionalSome (pc.metadata.getD "")
          else .optionalNone])
    ∧ ((Frontend.updateProofArgs pu).length = 3
      ∧ Frontend.updateProofArgs pu =
        [.bytes pu.proofId, .bytes pu.newProofText,
          if jsTruthy pu.newMetadata then .optionalSome (pu.newMetadata.getD "")
          else .optionalNone]) := by
  refine ⟨?_, ?_, ⟨?_, ?_⟩, ⟨?_, ?_⟩⟩
  · by_cases h : jsTruthy rc.metadata <;> simp [ContractService.createArgs, h]
  · by_cases h : jsTruthy ru.new_metadata <;> simp [ContractService.updateArgs, h]
  · by_cases h : jsTruthy pc.metadata <;> simp [Frontend.certifyActionArgs, h]
  · by_cases h : jsTruthy pc.metadata <;> simp [Frontend.certifyActionArgs, h]
  · by_cases h : jsTruthy pu.newMetadata <;> simp [Frontend.updateProofArgs, h]
  · by_cases h : jsTruthy pu.newMetadata <;> simp [Frontend.updateProofArgs, h]

/-- C10: whenever the persisted blob exists and parses,
`getCurrentWalletState` reports `isConnected = true` with the stored
address, regardless of the in-memory provider handle; consequently, with
a parsed blob but no active handle, `createProof` passes the connected
check and fails only inside `signAndSendTransaction` with
`No wallet connected` (not the guard's `Wallet not connected`), after no
signing request or broadcast. -/
theorem persisted_blob_passes_check_but_signing_fails :
    (∀ (cp : Option Backend) (pid addr : String) (t : Int),
      (WalletService.getCurrentWalletState
          ⟨cp, some (.valid pid addr t)⟩).1.isConnected = true
      ∧ (WalletService.getCurrentWalletState
          ⟨cp, some (.valid pid addr t)⟩).1.address = some addr)
    ∧ (∀ (r : ContractService.CreateProofRequest) (env : SignSendEnv)
        (pid : String) (t : Int),
      ContractService.createProof ⟨none, some (.valid pid "erd1demo" t)⟩ r env =
        (.error "No wallet connected", [])) := by
  constructor
  · intro cp pid addr t
    exact ⟨rfl, rfl⟩
  · intro r env pid t
    simp [ContractService.createProof, WalletService.getCurrentWalletState,
      jsTruthy, WalletService.signAndSendTransaction]

end MvxOnchainProof
